import Mathlib

/-!
Shallow embedding of `plugins/outputs/opentelemetry/opentelemetry.go`:
the OpenTelemetry output plugin (Connect / Close / Write) of the telegraf
fork.  External collaborators — the influx2otel line-protocol converter,
the gRPC dial/export stack, and the TLS-configuration builder of the
embedded client config — are out-of-repository libraries; they enter the
model as environment records whose fields stand for their observable
behaviour (success / failure and the produced values), while every piece
of logic of the source file itself is translated directly.
-/

/-- telegraf.ValueType: the local metric kind enumeration.  The Go type is
an `int` enum, so values outside the five named constants are possible;
`unknown code` stands for any such value (the `default` branch of the
`switch` in `Write`). -/
inductive ValueType where
  | counter
  | gauge
  | untyped
  | summary
  | histogram
  | unknown (code : Nat)
deriving DecidableEq, Repr

/-- Rendering of a metric kind, standing for the formatted argument of
`o.Log.Warnf("unrecognized metric type %Q", metric.Type())`. -/
def ValueType.render : ValueType → String
  | .counter => "counter"
  | .gauge => "gauge"
  | .untyped => "untyped"
  | .summary => "summary"
  | .histogram => "histogram"
  | .unknown code => "unknown " ++ toString code

/-- common.InfluxMetricValueType: the wire value-type enumeration. -/
inductive InfluxMetricValueType where
  | gauge
  | untyped
  | sum
  | histogram
  | summary
deriving DecidableEq, Repr

/-- The `switch metric.Type()` statement of `Write` (lines 133-148),
extracted as the pure local-kind → wire value-type mapper; `none` is the
`default` branch (unrecognized kind). -/
def mapValueType : ValueType → Option InfluxMetricValueType
  | .gauge => some .gauge
  | .untyped => some .untyped
  | .counter => some .sum
  | .histogram => some .histogram
  | .summary => some .summary
  | .unknown _ => none

/-- telegraf.Metric, restricted to the accessors `Write` uses:
`Name()`, `Tags()`, `Fields()`, `Time()`, `Type()`.  Field values pass
through the bridge opaquely, so they are represented by strings; the
timestamp is an instant represented by a natural number. -/
structure Metric where
  name : String
  tags : List (String × String)
  fields : List (String × String)
  time : Nat
  typ : ValueType
deriving DecidableEq, Repr

/-- The argument tuple of a successful `batch.AddPoint` call: one point
accepted into the batch accumulator. -/
structure AcceptedPoint where
  name : String
  tags : List (String × String)
  fields : List (String × String)
  time : Nat
  vtype : InfluxMetricValueType
deriving DecidableEq, Repr

/-- One entry of `md.Metrics().ResourceMetrics()`: a resource group with
its attribute set; the metric/data-point content below the resource is
never inspected by the bridge, so it is carried as an opaque tag. -/
structure ResourceMetricsEntry where
  attributes : List (String × String)
  content : Nat
deriving DecidableEq, Repr

/-- The finalized wire-format metrics payload
(pmetricotlp request wrapping pmetric.Metrics). -/
structure PMetrics where
  resourceMetrics : List ResourceMetricsEntry
deriving DecidableEq, Repr

/-- pcommon.Map.UpsertString / Go map assignment on a key-value list:
overwrite the binding if the key is present, append it otherwise. -/
def upsertString (attrs : List (String × String)) (k v : String) :
    List (String × String) :=
  if attrs.any (fun p => p.1 == k) then
    attrs.map (fun p => if p.1 == k then (k, v) else p)
  else
    attrs ++ [(k, v)]

/-- Reading a key-value list as a Go map: the value bound to the first
occurrence of the key, if any. -/
def lookupKey (k : String) : List (String × String) → Option String
  | [] => none
  | p :: rest => if p.1 == k then some p.2 else lookupKey k rest

/-- grpc.CallOption as used by this plugin: only
`grpc.UseCompressor(codec)` is ever constructed (line 115). -/
inductive CallOption where
  | useCompressor (codec : String)
deriving DecidableEq, Repr

/-- crypto/tls configuration handle; `TLSConfig.empty` stands for the
zero value `&ntls.Config\x7b\x7d` used in the coralogix branch. -/
structure TLSConfig where
  id : Nat
deriving DecidableEq, Repr

def TLSConfig.empty : TLSConfig := ⟨0⟩

/-- The gRPC transport credential selected by `Connect`:
`credentials.NewTLS(cfg)` or `insecure.NewCredentials()`. -/
inductive TransportCredential where
  | tls (cfg : TLSConfig)
  | insecure
deriving DecidableEq, Repr

/-- A gRPC client connection handle; the model records the dial
arguments that produced it. -/
structure GrpcConn where
  target : String
  credential : TransportCredential
  userAgent : String
deriving DecidableEq, Repr

/-- influx2otel.LineProtocolToOtelMetrics handle (opaque). -/
inductive Converter where
  | mk
deriving DecidableEq, Repr

structure CoralogixConfig where
  appName : String
  subSystem : String
  privateKey : String
deriving DecidableEq, Repr

/-- The OpenTelemetry plugin struct.  `dialect` and `coralogix` are the
vendor dialect selector and vendor sub-configuration; in the source they
are reached through the embedded TLS client-config aggregate, whose code
is not part of this file — modelled from the spec, which lists them on
the configuration surface (recognized dialect value `"coralogix"`;
application name, subsystem name, private key).  Header and attribute
maps are key-value lists with Go-map (unique-key) reading. -/
structure OpenTelemetry where
  serviceAddress : String
  dialect : String
  coralogix : CoralogixConfig
  timeout : Int
  compression : String
  headers : List (String × String)
  attributes : List (String × String)
  metricsConverter : Option Converter
  grpcClientConn : Option GrpcConn
  metricsServiceClient : Option GrpcConn
  callOptions : List CallOption
deriving DecidableEq, Repr

def coralogixDialect : String := "coralogix"
def defaultServiceAddress : String := "localhost:4317"
def defaultTimeout : Int := 5000000000
def defaultCompression : String := "gzip"

/-- The plugin instance produced by the `init` factory: defaults applied,
no connection state. -/
def initialState : OpenTelemetry :=
  { serviceAddress := defaultServiceAddress
  , dialect := ""
  , coralogix := ⟨"", "", ""⟩
  , timeout := defaultTimeout
  , compression := defaultCompression
  , headers := []
  , attributes := []
  , metricsConverter := none
  , grpcClientConn := none
  , metricsServiceClient := none
  , callOptions := [] }

/-- Environment for `Connect`: the observable behaviour of the external
collaborators it calls.  `newConverter` is
influx2otel.NewLineProtocolToOtelMetrics; `tlsConfigResult` is
`o.ClientConfig.TLSConfig()` (modelled from the spec: an opaque
"build a TLS configuration from config" capability that can fail, and
returns no configuration when the client config is empty); `dial` is
grpc.Dial, `some e` being a dial failure; `goos`/`goarch` are the
runtime identifiers used in the user-agent string. -/
structure ConnectEnv where
  newConverter : Except String Converter
  tlsConfigResult : Except String (Option TLSConfig)
  dial : String → TransportCredential → String → Option String
  goos : String
  goarch : String

def userAgentOf (env : ConnectEnv) : String :=
  "telegraf (" ++ env.goos ++ "/" ++ env.goarch ++ ")"

/-- Lines 68-75 of Connect: empty endpoint, non-positive timeout and
empty compression fall back to the defaults (each field independently). -/
def applyDefaults (o : OpenTelemetry) : OpenTelemetry :=
  { o with
    serviceAddress :=
      if o.serviceAddress == "" then defaultServiceAddress else o.serviceAddress
    timeout := if o.timeout ≤ 0 then defaultTimeout else o.timeout
    compression :=
      if o.compression == "" then defaultCompression else o.compression }

/-- Lines 76-83 of Connect: the three coralogix header assignments
(Go map writes, i.e. upserts). -/
def mergeCoralogixHeaders (o : OpenTelemetry) : List (String × String) :=
  upsertString
    (upsertString
      (upsertString o.headers "ApplicationName" o.coralogix.appName)
      "ApiName" o.coralogix.subSystem)
    "Authorization" ("Bearer " ++ o.coralogix.privateKey)

/-- Lines 90-100 of Connect: the transport-credential if/else chain.
Explicit non-empty TLS configuration wins; otherwise the coralogix
dialect forces TLS with the zero configuration; otherwise the insecure
credential is used; a TLS-configuration build error aborts. -/
def selectCredential (tlsResult : Except String (Option TLSConfig))
    (dialect : String) : Except String TransportCredential :=
  match tlsResult with
  | .error e => .error e
  | .ok (some cfg) => .ok (.tls cfg)
  | .ok none =>
    if dialect == coralogixDialect then .ok (.tls TLSConfig.empty)
    else .ok .insecure

/-- Connect (lines 64-119).  The receiver is mutated in place in Go, so
the model returns the error alongside the updated instance: defaults and
the coralogix header merge stick even when a later step fails, while the
converter/channel/client handles and the call options are only written
after every fallible step has succeeded. -/
def Connect (env : ConnectEnv) (o : OpenTelemetry) :
    Option String × OpenTelemetry :=
  let o := applyDefaults o
  let o :=
    { o with
      headers :=
        if o.dialect == coralogixDialect then mergeCoralogixHeaders o
        else o.headers }
  match env.newConverter with
  | .error e => (some e, o)
  | .ok conv =>
    match selectCredential env.tlsConfigResult o.dialect with
    | .error e => (some e, o)
    | .ok cred =>
      let ua := userAgentOf env
      match env.dial o.serviceAddress cred ua with
      | some e => (some e, o)
      | none =>
        let conn : GrpcConn := ⟨o.serviceAddress, cred, ua⟩
        let o :=
          { o with
            metricsConverter := some conv
            grpcClientConn := some conn
            metricsServiceClient := some conn }
        let o :=
          { o with
            callOptions :=
              if o.compression != "" && o.compression != "none" then
                o.callOptions ++ [.useCompressor o.compression]
              else o.callOptions }
        (none, o)

/-- Environment for `Close`: `closeConn` is grpcClientConn.Close(). -/
structure CloseEnv where
  closeConn : GrpcConn → Option String

/-- Close (lines 121-128): close the channel if one is stored, clearing
the handle regardless of the close error; no-op otherwise. -/
def Close (env : CloseEnv) (o : OpenTelemetry) :
    Option String × OpenTelemetry :=
  match o.grpcClientConn with
  | some conn => (env.closeConn conn, { o with grpcClientConn := none })
  | none => (none, o)

/-- The export RPC invocation assembled by `Write`: payload, per-call
deadline, optional outgoing metadata, stored call options. -/
structure ExportCall where
  timeoutNanos : Int
  headers : Option (List (String × String))
  payload : PMetrics
  callOptions : List CallOption
deriving DecidableEq, Repr

/-- Environment for `Write`: `addPoint` is `batch.AddPoint` (its outcome
may depend on the points already accumulated), `finalize` is
`pmetricotlp.NewRequestFromMetrics(batch.GetMetrics())`, and
`exportCall` is `o.metricsServiceClient.Export`. -/
structure WriteEnv where
  addPoint : List AcceptedPoint → AcceptedPoint → Option String
  finalize : List AcceptedPoint → PMetrics
  exportCall : ExportCall → Option String

/-- metadata.New: keys are normalized to lower case. -/
def metadataNew (h : List (String × String)) : List (String × String) :=
  h.map (fun p => (p.1.toLower, p.2))

/-- Lines 169-176 of Write: context with timeout, outgoing metadata when
headers are configured, stored call options. -/
def buildExportCall (o : OpenTelemetry) (md : PMetrics) : ExportCall :=
  { timeoutNanos := o.timeout
  , headers := if o.headers.length > 0 then some (metadataNew o.headers) else none
  , payload := md
  , callOptions := o.callOptions }

/-- One iteration of the conversion loop of Write (lines 132-155): map
the kind, warn-and-skip on an unrecognized kind, try `AddPoint`,
warn-and-skip on rejection, otherwise accumulate the point. -/
def writeStep (env : WriteEnv) (acc : List AcceptedPoint × List String)
    (m : Metric) : List AcceptedPoint × List String :=
  match mapValueType m.typ with
  | none => (acc.1, acc.2 ++ ["unrecognized metric type " ++ m.typ.render])
  | some vt =>
    let p : AcceptedPoint := ⟨m.name, m.tags, m.fields, m.time, vt⟩
    match env.addPoint acc.1 p with
    | some e => (acc.1, acc.2 ++ ["failed to add point: " ++ e])
    | none => (acc.1 ++ [p], acc.2)

/-- The whole conversion loop: accumulated batch and warning log. -/
def buildBatch (env : WriteEnv) (metrics : List Metric) :
    List AcceptedPoint × List String :=
  metrics.foldl (writeStep env) ([], [])

/-- Lines 161-167 of Write: upsert every configured attribute pair into
every resource group of the payload. -/
def injectAttributes (attrs : List (String × String)) (md : PMetrics) :
    PMetrics :=
  { resourceMetrics :=
      md.resourceMetrics.map (fun rm =>
        { rm with
          attributes :=
            attrs.foldl (fun a p => upsertString a p.1 p.2) rm.attributes }) }

/-- Outcome of a Write call: Go either returns an `error` value or
panics (nil-pointer dereference). -/
inductive WriteResult where
  | panic (msg : String)
  | ok (err : Option String)
deriving DecidableEq, Repr

def nilDerefMsg : String :=
  "runtime error: invalid memory address or nil pointer dereference"

/-- Write (lines 130-177).  `o.metricsConverter.NewBatch()` dereferences
the converter handle, so a nil handle panics before anything else; with
a converter present the loop builds the batch, an empty finalized
payload short-circuits to success, attributes are injected when
configured, and the export call's error is returned verbatim.  The
second component is the warning log. -/
def Write (env : WriteEnv) (o : OpenTelemetry) (metrics : List Metric) :
    WriteResult × List String :=
  match o.metricsConverter with
  | none => (.panic nilDerefMsg, [])
  | some _ =>
    let bw := buildBatch env metrics
    let md := env.finalize bw.1
    if md.resourceMetrics.length == 0 then (.ok none, bw.2)
    else
      let md :=
        if o.attributes.length > 0 then injectAttributes o.attributes md
        else md
      (.ok (env.exportCall (buildExportCall o md)), bw.2)

/-- n successive Connect calls on the same instance, stopping at the
first failure (the host would not keep an erroring connect's state as
connected, but repeated successful connects are possible). -/
def connectN (env : ConnectEnv) (o : OpenTelemetry) :
    Nat → Option String × OpenTelemetry
  | 0 => (none, o)
  | n + 1 =>
    let r := connectN env o n
    match r.1 with
    | some e => (some e, r.2)
    | none => Connect env r.2

/-! Concrete fixtures used to evaluate the theorems on closed inputs. -/

def envW : WriteEnv :=
  { addPoint := fun _ _ => none
  , finalize := fun pts => ⟨pts.map (fun p => ⟨p.tags, 0⟩)⟩
  , exportCall := fun _ => some "rpc unavailable" }

def connW : GrpcConn := ⟨"localhost:4317", .insecure, "telegraf (linux/amd64)"⟩

def oConnected : OpenTelemetry :=
  { initialState with
    metricsConverter := some .mk
    grpcClientConn := some connW
    metricsServiceClient := some connW
    callOptions := [.useCompressor "gzip"] }

def oCoralogix : OpenTelemetry :=
  { initialState with
    dialect := "coralogix"
    coralogix := ⟨"app", "sub", "K"⟩
    headers := [("Authorization", "stale")] }

def mGauge : Metric := ⟨"cpu", [("host", "a")], [("usage", "1")], 0, .gauge⟩

def mBad : Metric := ⟨"cpu", [], [], 0, .unknown 7⟩

def cEnvOk : ConnectEnv :=
  { newConverter := .ok .mk
  , tlsConfigResult := .ok none
  , dial := fun _ _ _ => none
  , goos := "linux"
  , goarch := "amd64" }

def cEnvTLSFail : ConnectEnv :=
  { cEnvOk with tlsConfigResult := .error "tls: bad certificate" }

def clEnv : CloseEnv := { closeConn := fun _ => none }

def attrsW : List (String × String) := [("env", "prod")]

def mdW : PMetrics := ⟨[⟨[("env", "dev")], 0⟩, ⟨[], 1⟩]⟩

/-! Helper lemmas shared by the claim theorems. -/

theorem writeStep_fst_congr (env : WriteEnv) (b : List AcceptedPoint)
    (w w' : List String) (m : Metric) :
    (writeStep env (b, w) m).1 = (writeStep env (b, w') m).1 := by
  cases h : mapValueType m.typ with
  | none => simp [writeStep, h]
  | some vt =>
    cases h2 : env.addPoint b ⟨m.name, m.tags, m.fields, m.time, vt⟩ <;>
      simp [writeStep, h, h2]

theorem foldl_writeStep_fst (env : WriteEnv) :
    ∀ (ms : List Metric) (b : List AcceptedPoint) (w w' : List String),
    (ms.foldl (writeStep env) (b, w)).1 = (ms.foldl (writeStep env) (b, w')).1 := by
  intro ms
  induction ms with
  | nil => intro b w w'; rfl
  | cons m rest ih =>
    intro b w w'
    simp only [List.foldl_cons]
    rcases hs : writeStep env (b, w) m with ⟨b1, w1⟩
    rcases hs2 : writeStep env (b, w') m with ⟨b2, w2⟩
    have hb : b1 = b2 := by
      have := writeStep_fst_congr env b w w' m
      rw [hs, hs2] at this
      exact this
    subst hb
    exact ih b1 w1 w2

theorem buildBatch_drop_unrecognized (env : WriteEnv) (pre post : List Metric)
    (m : Metric) (h : mapValueType m.typ = none) :
    (buildBatch env (pre ++ m :: post)).1 = (buildBatch env (pre ++ post)).1 := by
  simp only [buildBatch, List.foldl_append, List.foldl_cons]
  rcases hp : List.foldl (writeStep env) ([], []) pre with ⟨b, w⟩
  have hstep : writeStep env (b, w) m =
      (b, w ++ ["unrecognized metric type " ++ m.typ.render]) := by
    simp [writeStep, h]
  rw [hstep]
  exact foldl_writeStep_fst env post b _ w

theorem buildBatch_drop_rejected (env : WriteEnv) (pre post : List Metric)
    (m : Metric) (vt : InfluxMetricValueType) (e : String)
    (h : mapValueType m.typ = some vt)
    (hrej : env.addPoint (buildBatch env pre).1
      ⟨m.name, m.tags, m.fields, m.time, vt⟩ = some e) :
    (buildBatch env (pre ++ m :: post)).1 = (buildBatch env (pre ++ post)).1 := by
  simp only [buildBatch, List.foldl_append, List.foldl_cons]
  rcases hp : List.foldl (writeStep env) ([], []) pre with ⟨b, w⟩
  have hb : (buildBatch env pre).1 = b := by rw [buildBatch, hp]
  rw [hb] at hrej
  have hstep : writeStep env (b, w) m = (b, w ++ ["failed to add point: " ++ e]) := by
    simp [writeStep, h, hrej]
  rw [hstep]
  exact foldl_writeStep_fst env post b _ w

theorem lookupKey_overwrite_hit (k v : String) :
    ∀ (a : List (String × String)), a.any (fun p => p.1 == k) = true →
    lookupKey k (a.map (fun p => if p.1 == k then (k, v) else p)) = some v := by
  intro a
  induction a with
  | nil => intro h; simp at h
  | cons p rest ih =>
    intro h
    by_cases hk : p.1 = k
    · simp [lookupKey, hk]
    · have hr : rest.any (fun q => q.1 == k) = true := by
        simp only [List.any_cons, Bool.or_eq_true] at h
        rcases h with h | h
        · exact absurd (by simpa using h) hk
        · exact h
      simpa [lookupKey, hk] using ih hr

theorem lookupKey_overwrite_miss (k v k' : String) (hne : k' ≠ k) :
    ∀ (a : List (String × String)),
    lookupKey k' (a.map (fun p => if p.1 == k then (k, v) else p)) =
      lookupKey k' a := by
  intro a
  induction a with
  | nil => rfl
  | cons p rest ih =>
    by_cases hk : p.1 = k
    · have h1 : ¬ (k = k') := fun hh => hne hh.symm
      have h2 : ¬ (p.1 = k') := by rw [hk]; exact h1
      simpa [lookupKey, hk, h1, h2] using ih
    · by_cases hp : p.1 = k'
      · simp [lookupKey, hk, hp, hne]
      · simpa [lookupKey, hk, hp] using ih

theorem lookupKey_append_single_hit (k v : String) :
    ∀ (a : List (String × String)), a.any (fun p => p.1 == k) = false →
    lookupKey k (a ++ [(k, v)]) = some v := by
  intro a
  induction a with
  | nil => simp [lookupKey]
  | cons p rest ih =>
    intro h
    simp only [List.any_cons, Bool.or_eq_false_iff] at h
    have hk : ¬ (p.1 = k) := by simpa using h.1
    simpa [lookupKey, hk] using ih h.2

theorem lookupKey_append_single_miss (k v k' : String) (hne : k' ≠ k) :
    ∀ (a : List (String × String)),
    lookupKey k' (a ++ [(k, v)]) = lookupKey k' a := by
  intro a
  induction a with
  | nil => simp [lookupKey, Ne.symm hne]
  | cons p rest ih =>
    by_cases hp : p.1 = k'
    · simp [lookupKey, hp]
    · simpa [lookupKey, hp] using ih

theorem lookupKey_upsert_self (a : List (String × String)) (k v : String) :
    lookupKey k (upsertString a k v) = some v := by
  by_cases h : a.any (fun p => p.1 == k)
  · rw [upsertString, if_pos h]
    exact lookupKey_overwrite_hit k v a h
  · rw [upsertString, if_neg h]
    have hf : a.any (fun p => p.1 == k) = false := by
      cases hany : a.any (fun p => p.1 == k) with
      | false => rfl
      | true => exact absurd hany h
    exact lookupKey_append_single_hit k v a hf

theorem lookupKey_upsert_other (a : List (String × String)) (k v k' : String)
    (hne : k' ≠ k) : lookupKey k' (upsertString a k v) = lookupKey k' a := by
  by_cases h : a.any (fun p => p.1 == k)
  · rw [upsertString, if_pos h]
    exact lookupKey_overwrite_miss k v k' hne a
  · rw [upsertString, if_neg h]
    exact lookupKey_append_single_miss k v k' hne a

/-! Claim theorems. -/

/-- Claim C2: the metric type mapper is a pure function with exactly the
mapping Gauge→Gauge, Untyped→Untyped, Counter→Sum, Histogram→Histogram,
Summary→Summary; any other kind yields no mapping, and in the Write loop
such a point only produces a warning identifying the offending kind and
is skipped — the accumulated batch is unchanged and the write call still
returns a value (never aborts) whenever a converter is present. -/
theorem C2_metric_type_mapper :
    mapValueType .gauge = some .gauge
    ∧ mapValueType .untyped = some .untyped
    ∧ mapValueType .counter = some .sum
    ∧ mapValueType .histogram = some .histogram
    ∧ mapValueType .summary = some .summary
    ∧ (∀ code, mapValueType (.unknown code) = none)
    ∧ (∀ (env : WriteEnv) (b : List AcceptedPoint) (w : List String)
        (m : Metric), mapValueType m.typ = none →
        writeStep env (b, w) m =
          (b, w ++ ["unrecognized metric type " ++ m.typ.render]))
    ∧ (∀ (env : WriteEnv) (o : OpenTelemetry) (ms : List Metric)
        (c : Converter), o.metricsConverter = some c →
        ∃ e w, Write env o ms = (.ok e, w)) := by
  refine ⟨rfl, rfl, rfl, rfl, rfl, fun _ => rfl, ?_, ?_⟩
  · intro env b w m h
    simp [writeStep, h]
  · intro env o ms c hc
    simp only [Write, hc]
    split
    · exact ⟨none, _, rfl⟩
    · exact ⟨_, _, rfl⟩

/-- Witness for C2 at a concrete skipped point: the kind `unknown 7` has
no mapping, and the loop step records the warning and drops the point. -/
theorem C2_witness :
    mapValueType mBad.typ = none
    ∧ writeStep envW ([], []) mBad =
        ([], ["unrecognized metric type unknown 7"]) :=
  ⟨rfl, C2_metric_type_mapper.2.2.2.2.2.2.1 envW [] [] mBad rfl⟩

/-- Claim C9: calling Write with no converter stored (Connect never
succeeded) dereferences the nil converter handle while building the
batch and crashes instead of returning an error value; in particular the
factory-fresh instance panics on any input. -/
theorem C9_write_uninitialized_panics :
    ∀ (env : WriteEnv) (ms : List Metric),
    Write env initialState ms = (.panic nilDerefMsg, [])
    ∧ (∀ o : OpenTelemetry, o.metricsConverter = none →
        Write env o ms = (.panic nilDerefMsg, [])) := by
  intro env ms
  refine ⟨rfl, ?_⟩
  intro o h
  simp [Write, h]

/-- Witness for C9: the fresh instance panics on a singleton batch. -/
theorem C9_witness :
    initialState.metricsConverter = none
    ∧ Write envW initialState [mGauge] = (.panic nilDerefMsg, []) :=
  ⟨rfl, (C9_write_uninitialized_panics envW [mGauge]).2 initialState rfl⟩

/-- Claim C7: Close closes an open channel, clears the stored handle
regardless of the close outcome and returns the close error; with no
open channel it is a no-op returning no error; hence a second
consecutive Close (under any close behaviour) returns nil and leaves the
state fixed. -/
theorem C7_close_idempotent :
    ∀ (env : CloseEnv) (o : OpenTelemetry),
    (∀ conn, o.grpcClientConn = some conn →
      Close env o = (env.closeConn conn, { o with grpcClientConn := none }))
    ∧ (o.grpcClientConn = none → Close env o = (none, o))
    ∧ (∀ env2 : CloseEnv,
        Close env2 (Close env o).2 = (none, (Close env o).2)) := by
  intro env o
  refine ⟨?_, ?_, ?_⟩
  · intro conn h
    simp [Close, h]
  · intro h
    simp [Close, h]
  · intro env2
    cases h : o.grpcClientConn with
    | none => simp [Close, h]
    | some conn => simp [Close, h]

/-- Witness for C7: closing a connected instance returns the channel's
close result and clears the handle; the immediate second close is a
no-op success. -/
theorem C7_witness :
    oConnected.grpcClientConn = some connW
    ∧ Close clEnv oConnected =
        (clEnv.closeConn connW, { oConnected with grpcClientConn := none })
    ∧ Close clEnv (Close clEnv oConnected).2 =
        (none, (Close clEnv oConnected).2) :=
  ⟨rfl, (C7_close_idempotent clEnv oConnected).1 connW rfl,
    (C7_close_idempotent clEnv oConnected).2.2 clEnv⟩

/-- Claim C1: with a converter present, Write's returned value is the
export call's error verbatim — `none` (success) when the finalized
payload is empty, otherwise exactly what the export RPC returned on the
assembled request — and per-point failures (unrecognized kind, rejected
addition) are dropped from the batch while the remaining points are
processed in input order, never becoming a call-level error. -/
theorem C1_write_returns_export_error_verbatim :
    (∀ (env : WriteEnv) (o : OpenTelemetry) (ms : List Metric)
      (c : Converter), o.metricsConverter = some c →
      (((env.finalize (buildBatch env ms).1).resourceMetrics.length = 0 →
          Write env o ms = (.ok none, (buildBatch env ms).2))
       ∧ ((env.finalize (buildBatch env ms).1).resourceMetrics.length ≠ 0 →
          Write env o ms =
            (.ok (env.exportCall (buildExportCall o
              (if o.attributes.length > 0 then
                injectAttributes o.attributes
                  (env.finalize (buildBatch env ms).1)
               else env.finalize (buildBatch env ms).1))),
             (buildBatch env ms).2))))
    ∧ (∀ (env : WriteEnv) (pre post : List Metric) (m : Metric),
        mapValueType m.typ = none →
        (buildBatch env (pre ++ m :: post)).1 =
          (buildBatch env (pre ++ post)).1)
    ∧ (∀ (env : WriteEnv) (pre post : List Metric) (m : Metric)
        (vt : InfluxMetricValueType) (e : String),
        mapValueType m.typ = some vt →
        env.addPoint (buildBatch env pre).1
          ⟨m.name, m.tags, m.fields, m.time, vt⟩ = some e →
        (buildBatch env (pre ++ m :: post)).1 =
          (buildBatch env (pre ++ post)).1) := by
  refine ⟨?_, buildBatch_drop_unrecognized, buildBatch_drop_rejected⟩
  intro env o ms c hc
  constructor
  · intro hlen
    simp [Write, hc, hlen]
  · intro hlen
    simp [Write, hc, hlen]

/-- Witness for C1: a one-gauge batch against a transport whose export
fails yields exactly the export error. -/
theorem C1_witness :
    oConnected.metricsConverter = some Converter.mk
    ∧ (envW.finalize (buildBatch envW [mGauge]).1).resourceMetrics.length ≠ 0
    ∧ Write envW oConnected [mGauge] = (.ok (some "rpc unavailable"), []) :=
  ⟨rfl, by decide,
    ((C1_write_returns_export_error_verbatim.1 envW oConnected [mGauge]
      Converter.mk rfl).2 (by decide))⟩

/-- Claim C3: a finalized payload with zero resource-metric groups makes
Write return success at once with no export call (the result does not
depend on the export function at all); in particular, given the library
invariant that an empty batch finalizes to an empty payload, a run in
which every point was skipped and the empty input sequence both return
success immediately. -/
theorem C3_empty_batch_returns_success :
    ∀ (env : WriteEnv) (o : OpenTelemetry) (ms : List Metric)
      (c : Converter), o.metricsConverter = some c →
    (((env.finalize (buildBatch env ms).1).resourceMetrics.length = 0 →
        Write env o ms = (.ok none, (buildBatch env ms).2)
        ∧ (∀ exp2 : ExportCall → Option String,
            Write { env with exportCall := exp2 } o ms = Write env o ms)))
    ∧ (env.finalize [] = ⟨[]⟩ →
        ((buildBatch env ms).1 = [] →
          Write env o ms = (.ok none, (buildBatch env ms).2))
        ∧ Write env o [] = (.ok none, [])) := by
  intro env o ms c hc
  constructor
  · intro hlen
    have hbb : buildBatch { env with exportCall := fun _ => none } ms =
        buildBatch env ms := rfl
    constructor
    · simp [Write, hc, hlen]
    · intro exp2
      have hbb2 : buildBatch { env with exportCall := exp2 } ms =
          buildBatch env ms := rfl
      simp [Write, hc, hlen, hbb2]
  · intro hfin
    constructor
    · intro hbatch
      have hlen : (env.finalize (buildBatch env ms).1).resourceMetrics.length
          = 0 := by rw [hbatch, hfin]; rfl
      simp [Write, hc, hlen]
    · have hnil : buildBatch env ([] : List Metric) = ([], []) := rfl
      have hlen : (env.finalize (buildBatch env ([] : List Metric)).1).resourceMetrics.length
          = 0 := by rw [hnil, hfin]; rfl
      simpa [hnil] using
        (show Write env o ([] : List Metric) =
          (.ok none, (buildBatch env ([] : List Metric)).2) by
          simp [Write, hc, hlen])

/-- Witness for C3: an input whose only point has an unrecognized kind
finalizes to an empty payload and Write returns success with only the
skip warning logged. -/
theorem C3_witness :
    oConnected.metricsConverter = some Converter.mk
    ∧ envW.finalize [] = ⟨[]⟩
    ∧ (buildBatch envW [mBad]).1 = []
    ∧ Write envW oConnected [mBad] =
        (.ok none, ["unrecognized metric type unknown 7"]) :=
  ⟨rfl, rfl, rfl,
    ((C3_empty_batch_returns_success envW oConnected [mBad]
      Converter.mk rfl).2 rfl).1 rfl⟩

theorem lookupKey_foldl_upsert_notmem :
    ∀ (attrs : List (String × String)) (a : List (String × String))
      (k : String), k ∉ attrs.map Prod.fst →
    lookupKey k (attrs.foldl (fun acc p => upsertString acc p.1 p.2) a) =
      lookupKey k a := by
  intro attrs
  induction attrs with
  | nil => intro a k _; rfl
  | cons q rest ih =>
    intro a k hk
    simp only [List.map_cons, List.mem_cons, not_or] at hk
    simp only [List.foldl_cons]
    rw [ih _ k hk.2, lookupKey_upsert_other a q.1 q.2 k hk.1]

theorem lookupKey_foldl_upsert_mem :
    ∀ (attrs : List (String × String)) (a : List (String × String))
      (k v : String), (attrs.map Prod.fst).Nodup → (k, v) ∈ attrs →
    lookupKey k (attrs.foldl (fun acc p => upsertString acc p.1 p.2) a) =
      some v := by
  intro attrs
  induction attrs with
  | nil => intro a k v _ hm; simp at hm
  | cons q rest ih =>
    intro a k v hnd hm
    simp only [List.map_cons, List.nodup_cons] at hnd
    simp only [List.foldl_cons]
    rcases List.mem_cons.mp hm with he | hm2
    · have hq1 : q.1 = k := by rw [← he]
      have hk : k ∉ rest.map Prod.fst := by rw [← hq1]; exact hnd.1
      rw [lookupKey_foldl_upsert_notmem rest _ k hk, ← he,
        lookupKey_upsert_self]
    · exact ih _ k v hnd.2 hm2

/-- Claim C6: attribute injection is a no-op on the payload when the
configured mapping is empty; otherwise every configured key/value pair
is upserted into every resource group's attribute set, so afterwards
each configured key reads back exactly the configured value in every
group regardless of prior content; the group list's length and the
non-attribute content of each group are preserved (in-place update). -/
theorem C6_attribute_injection :
    ∀ (attrs : List (String × String)) (md : PMetrics),
    (attrs = [] → injectAttributes attrs md = md)
    ∧ ((attrs.map Prod.fst).Nodup →
        ∀ k v, (k, v) ∈ attrs →
        ∀ rm ∈ (injectAttributes attrs md).resourceMetrics,
          lookupKey k rm.attributes = some v)
    ∧ (injectAttributes attrs md).resourceMetrics.length =
        md.resourceMetrics.length
    ∧ (injectAttributes attrs md).resourceMetrics.map
        ResourceMetricsEntry.content =
      md.resourceMetrics.map ResourceMetricsEntry.content := by
  intro attrs md
  refine ⟨?_, ?_, ?_, ?_⟩
  · intro h
    subst h
    show PMetrics.mk (List.map id md.resourceMetrics) = md
    rw [List.map_id]
  · intro hnd k v hm rm hrm
    simp only [injectAttributes, List.mem_map] at hrm
    obtain ⟨rm0, _, hrw⟩ := hrm
    rw [← hrw]
    exact lookupKey_foldl_upsert_mem attrs rm0.attributes k v hnd hm
  · simp [injectAttributes]
  · simp only [injectAttributes, List.map_map]
    rfl

/-- Witness for C6: injecting `env=prod` into a two-group payload whose
first group already binds `env` overwrites it in the first group and
inserts it in the second. -/
theorem C6_witness :
    (attrsW.map Prod.fst).Nodup
    ∧ ("env", "prod") ∈ attrsW
    ∧ (∀ rm ∈ (injectAttributes attrsW mdW).resourceMetrics,
        lookupKey "env" rm.attributes = some "prod") :=
  ⟨by decide, by decide,
    (C6_attribute_injection attrsW mdW).2.1 (by decide) "env" "prod"
      (by decide)⟩

theorem Connect_snd_headers (env : ConnectEnv) (o : OpenTelemetry) :
    (Connect env o).2.headers =
      if o.dialect == coralogixDialect then mergeCoralogixHeaders o
      else o.headers := by
  simp only [Connect]
  split
  · simp [applyDefaults, mergeCoralogixHeaders]
  · split
    · simp [applyDefaults, mergeCoralogixHeaders]
    · split
      · simp [applyDefaults, mergeCoralogixHeaders]
      · simp [applyDefaults, mergeCoralogixHeaders]

/-- Claim C5: when and only when the dialect is `"coralogix"`, Connect
merges exactly the three derived headers — ApplicationName, ApiName and
Authorization = "Bearer " + private key — into the header mapping,
overwriting prior values and leaving every other key alone; with any
other dialect the header mapping is untouched.  The statement holds for
every environment, including those whose TLS-configuration build or dial
fails, which is the observable form of the merge happening before the
transport-credential decision. -/
theorem C5_coralogix_header_merge :
    ∀ (env : ConnectEnv) (o : OpenTelemetry),
    (o.dialect = coralogixDialect →
      lookupKey "ApplicationName" (Connect env o).2.headers =
          some o.coralogix.appName
      ∧ lookupKey "ApiName" (Connect env o).2.headers =
          some o.coralogix.subSystem
      ∧ lookupKey "Authorization" (Connect env o).2.headers =
          some ("Bearer " ++ o.coralogix.privateKey)
      ∧ (∀ k, k ≠ "ApplicationName" → k ≠ "ApiName" → k ≠ "Authorization" →
          lookupKey k (Connect env o).2.headers = lookupKey k o.headers))
    ∧ (o.dialect ≠ coralogixDialect → (Connect env o).2.headers = o.headers) := by
  intro env o
  constructor
  · intro hd
    rw [Connect_snd_headers, if_pos (by simpa using hd)]
    refine ⟨?_, ?_, ?_, ?_⟩
    · rw [mergeCoralogixHeaders,
        lookupKey_upsert_other _ _ _ _ (by decide),
        lookupKey_upsert_other _ _ _ _ (by decide),
        lookupKey_upsert_self]
    · rw [mergeCoralogixHeaders,
        lookupKey_upsert_other _ _ _ _ (by decide),
        lookupKey_upsert_self]
    · rw [mergeCoralogixHeaders, lookupKey_upsert_self]
    · intro k h1 h2 h3
      rw [mergeCoralogixHeaders,
        lookupKey_upsert_other _ _ _ _ h3,
        lookupKey_upsert_other _ _ _ _ h2,
        lookupKey_upsert_other _ _ _ _ h1]
  · intro hd
    rw [Connect_snd_headers, if_neg (by simpa using hd)]

/-- Witness for C5: a coralogix-dialect instance with a stale
Authorization header, connected through an environment whose TLS build
fails, still ends up with the three derived headers (stale value
overwritten). -/
theorem C5_witness :
    oCoralogix.dialect = coralogixDialect
    ∧ lookupKey "ApplicationName" (Connect cEnvTLSFail oCoralogix).2.headers =
        some "app"
    ∧ lookupKey "ApiName" (Connect cEnvTLSFail oCoralogix).2.headers =
        some "sub"
    ∧ lookupKey "Authorization" (Connect cEnvTLSFail oCoralogix).2.headers =
        some "Bearer K" :=
  ⟨rfl, ((C5_coralogix_header_merge cEnvTLSFail oCoralogix).1 rfl).1,
    ((C5_coralogix_header_merge cEnvTLSFail oCoralogix).1 rfl).2.1,
    ((C5_coralogix_header_merge cEnvTLSFail oCoralogix).1 rfl).2.2.1⟩

/-- Claim C4: Connect picks the transport credential by priority —
explicit non-empty TLS configuration first, otherwise TLS with the
empty/default configuration for the coralogix dialect, otherwise the
insecure credential — and a TLS-configuration build failure aborts
Connect with that error unchanged. -/
theorem C4_transport_credential_priority :
    ∀ (env : ConnectEnv) (o : OpenTelemetry),
    ((∀ a cr u, env.dial a cr u = none) →
      ∀ c, env.newConverter = .ok c →
      ((∀ cfg, env.tlsConfigResult = .ok (some cfg) →
          Option.map GrpcConn.credential (Connect env o).2.grpcClientConn =
            some (.tls cfg))
       ∧ (env.tlsConfigResult = .ok none → o.dialect = coralogixDialect →
          Option.map GrpcConn.credential (Connect env o).2.grpcClientConn =
            some (.tls TLSConfig.empty))
       ∧ (env.tlsConfigResult = .ok none → o.dialect ≠ coralogixDialect →
          Option.map GrpcConn.credential (Connect env o).2.grpcClientConn =
            some TransportCredential.insecure)))
    ∧ (∀ c e, env.newConverter = .ok c → env.tlsConfigResult = .error e →
        (Connect env o).1 = some e) := by
  intro env o
  constructor
  · intro hdial c hconv
    refine ⟨?_, ?_, ?_⟩
    · intro cfg htls
      simp [Connect, hconv, htls, hdial, selectCredential, applyDefaults]
    · intro htls hd
      simp [Connect, hconv, htls, hdial, selectCredential, applyDefaults, hd]
    · intro htls hd
      simp [Connect, hconv, htls, hdial, selectCredential, applyDefaults, hd]
  · intro c e hconv htls
    simp [Connect, hconv, htls, selectCredential]

/-- Witness for C4: with no explicit TLS configuration and no dialect
the insecure credential is dialled, and a failing TLS build aborts with
its error. -/
theorem C4_witness :
    cEnvOk.newConverter = Except.ok Converter.mk
    ∧ cEnvOk.tlsConfigResult = Except.ok none
    ∧ initialState.dialect ≠ coralogixDialect
    ∧ Option.map GrpcConn.credential
        (Connect cEnvOk initialState).2.grpcClientConn =
        some TransportCredential.insecure
    ∧ (Connect cEnvTLSFail initialState).1 = some "tls: bad certificate" :=
  ⟨rfl, rfl, by decide,
    ((C4_transport_credential_priority cEnvOk initialState).1
      (fun _ _ _ => rfl) Converter.mk rfl).2.2 rfl (by decide),
    (C4_transport_credential_priority cEnvTLSFail initialState).2
      Converter.mk "tls: bad certificate" rfl rfl⟩

/-- Claim C8: every fatal-to-connect failure (converter construction,
TLS-configuration build, channel establishment) surfaces the collaborator
error unchanged and stores no connection state: the converter, channel,
client and call-option fields of the instance are exactly what they were
before the call — in particular an uninitialized instance stays
uninitialized. -/
theorem C8_failed_connect_leaves_uninitialized :
    ∀ (env : ConnectEnv) (o : OpenTelemetry) (e : String),
    (Connect env o).1 = some e →
    (Connect env o).2.metricsConverter = o.metricsConverter
    ∧ (Connect env o).2.grpcClientConn = o.grpcClientConn
    ∧ (Connect env o).2.metricsServiceClient = o.metricsServiceClient
    ∧ (Connect env o).2.callOptions = o.callOptions
    ∧ (env.newConverter = .error e ∨ env.tlsConfigResult = .error e
       ∨ ∃ a cr u, env.dial a cr u = some e) := by
  intro env o e h
  rcases hconv : env.newConverter with e1 | conv
  · simp only [Connect, hconv] at h ⊢
    obtain rfl : e1 = e := by simpa using h
    simp [applyDefaults, hconv]
  · rcases htls : env.tlsConfigResult with e2 | tc
    · simp only [Connect, hconv, selectCredential, htls] at h ⊢
      obtain rfl : e2 = e := by simpa using h
      simp [applyDefaults, htls]
    · obtain ⟨cred, hcred⟩ :
          ∃ cred, selectCredential env.tlsConfigResult
            ((applyDefaults o).dialect) = Except.ok cred := by
        rw [htls]
        cases tc with
        | some cfg => exact ⟨_, rfl⟩
        | none =>
          rw [selectCredential]
          by_cases hd : ((applyDefaults o).dialect == coralogixDialect)
          · rw [if_pos hd]; exact ⟨_, rfl⟩
          · rw [if_neg hd]; exact ⟨_, rfl⟩
      simp only [Connect, hconv, hcred] at h ⊢
      rcases hdial : env.dial ((applyDefaults o).serviceAddress) cred
          (userAgentOf env) with _ | e3
      · rw [hdial] at h
        simp at h
      · rw [hdial] at h
        obtain rfl : e3 = e := by simpa using h
        refine ⟨?_, ?_, ?_, ?_, ?_⟩
        · simp [applyDefaults]
        · simp [applyDefaults]
        · simp [applyDefaults]
        · simp [applyDefaults]
        · exact Or.inr (Or.inr ⟨_, _, _, hdial⟩)

/-- Witness for C8: after a failed Connect (TLS build failure) on a
fresh instance, none of the four connection-state fields is stored. -/
theorem C8_witness :
    (Connect cEnvTLSFail initialState).1 = some "tls: bad certificate"
    ∧ (Connect cEnvTLSFail initialState).2.metricsConverter = none
    ∧ (Connect cEnvTLSFail initialState).2.grpcClientConn = none
    ∧ (Connect cEnvTLSFail initialState).2.metricsServiceClient = none
    ∧ (Connect cEnvTLSFail initialState).2.callOptions = [] :=
  ⟨by decide,
    (C8_failed_connect_leaves_uninitialized cEnvTLSFail initialState
      "tls: bad certificate" (by decide)).1,
    (C8_failed_connect_leaves_uninitialized cEnvTLSFail initialState
      "tls: bad certificate" (by decide)).2.1,
    (C8_failed_connect_leaves_uninitialized cEnvTLSFail initialState
      "tls: bad certificate" (by decide)).2.2.1,
    (C8_failed_connect_leaves_uninitialized cEnvTLSFail initialState
      "tls: bad certificate" (by decide)).2.2.2.1⟩

theorem Connect_snd_compression (env : ConnectEnv) (o : OpenTelemetry) :
    (Connect env o).2.compression = (applyDefaults o).compression := by
  simp only [Connect]
  split
  · rfl
  · split
    · rfl
    · split
      · rfl
      · rfl

theorem applyDefaults_compression_ne (o : OpenTelemetry)
    (h : o.compression ≠ "none") :
    (applyDefaults o).compression ≠ "none"
    ∧ (applyDefaults o).compression ≠ "" := by
  by_cases he : o.compression = ""
  · simp only [applyDefaults, he]
    exact ⟨by decide, by decide⟩
  · simp only [applyDefaults]
    rw [if_neg (by simpa using he)]
    exact ⟨h, he⟩

theorem Connect_success_callOptions (env : ConnectEnv) (o : OpenTelemetry)
    (h : (Connect env o).1 = none) :
    (Connect env o).2.callOptions =
      if ((applyDefaults o).compression != ""
          && (applyDefaults o).compression != "none") = true then
        (applyDefaults o).callOptions
          ++ [.useCompressor (applyDefaults o).compression]
      else (applyDefaults o).callOptions := by
  rcases hconv : env.newConverter with e1 | conv
  · rw [Connect] at h
    simp [hconv] at h
  · rcases hsel : selectCredential env.tlsConfigResult
        ((applyDefaults o).dialect) with e2 | cred
    · rw [Connect] at h
      simp [hconv, hsel] at h
    · rcases hdial : env.dial ((applyDefaults o).serviceAddress) cred
          (userAgentOf env) with _ | e3
      · simp [Connect, hconv, hsel, hdial]
      · rw [Connect] at h
        simp [hconv, hsel, hdial] at h

theorem connectN_callOptions_aux (env : ConnectEnv) (o : OpenTelemetry)
    (hc : o.compression ≠ "none") :
    ∀ n, (connectN env o n).1 = none →
    (connectN env o n).2.callOptions.length = o.callOptions.length + n
    ∧ (connectN env o n).2.compression ≠ "none" := by
  intro n
  induction n with
  | zero => intro _; exact ⟨rfl, hc⟩
  | succ n ih =>
    intro hs
    cases ho : (connectN env o n).1 with
    | some e =>
      rw [connectN] at hs
      simp [ho] at hs
    | none =>
      rw [connectN] at hs ⊢
      simp only [ho] at hs ⊢
      obtain ⟨hlen, hcomp⟩ := ih ho
      obtain ⟨h1, h2⟩ := applyDefaults_compression_ne (connectN env o n).2 hcomp
      have hcond : (((applyDefaults (connectN env o n).2).compression != "")
          && ((applyDefaults (connectN env o n).2).compression != "none"))
          = true := by
        simp only [Bool.and_eq_true, bne_iff_ne]
        exact ⟨h2, h1⟩
      constructor
      · rw [Connect_success_callOptions env (connectN env o n).2 hs, if_pos hcond]
        have hco : (applyDefaults (connectN env o n).2).callOptions =
            (connectN env o n).2.callOptions := rfl
        rw [hco]
        simp only [List.length_append, List.length_cons, List.length_nil]
        omega
      · rw [Connect_snd_compression]
        exact h1

/-- Claim C10: a successful Connect appends its compressor call option
to the list instead of resetting it — with compression never empty after
the defaults — so n successful Connect calls with compression other than
"none" leave n compressor options on the instance (the factory-fresh
instance starts with none). -/
theorem C10_connect_appends_compressor :
    ∀ (env : ConnectEnv) (o : OpenTelemetry) (n : Nat),
    (o.compression ≠ "none" → (connectN env o n).1 = none →
      (connectN env o n).2.callOptions.length = o.callOptions.length + n)
    ∧ ((connectN env initialState n).1 = none →
        (connectN env initialState n).2.callOptions.length = n)
    ∧ (Connect env o).2.compression ≠ "" := by
  intro env o n
  refine ⟨?_, ?_, ?_⟩
  · intro hc hs
    exact (connectN_callOptions_aux env o hc n hs).1
  · intro hs
    have := (connectN_callOptions_aux env initialState (by decide) n hs).1
    simpa [initialState] using this
  · rw [Connect_snd_compression]
    by_cases he : o.compression = ""
    · simp only [applyDefaults, he]
      decide
    · simp only [applyDefaults]
      rw [if_neg (by simpa using he)]
      exact he

/-- Witness for C10: two consecutive successful Connect calls on a fresh
instance leave exactly two compressor options stored. -/
theorem C10_witness :
    (connectN cEnvOk initialState 2).1 = none
    ∧ (connectN cEnvOk initialState 2).2.callOptions.length = 2 :=
  ⟨by decide, (C10_connect_appends_compressor cEnvOk initialState 2).2.1
    (by decide)⟩
